import Mathlib

/-!
Verification of the temporal collection & filtering engine of the Trendit
repository (`date_filter_fixes/date_filter_patch.py`,
`date_filter_fixes/test_date_filter.py`).

Items are modelled as records with optional fields, mirroring the ad-hoc
dict-shaped posts of the Python source (`post.get('title', '')`,
`post.get('score', 0)`, ...).  Timestamps are modelled as integers (an
absolute instant, e.g. epoch seconds); a post's `created_utc` field can be
absent, present but unparsable (the test suite feeds the literal string
`'invalid'`), or a valid instant.
-/

namespace Trendit

/-- The `created_utc` entry of a post dict: missing, present but not
interpretable as an instant, or a valid absolute instant. -/
inductive TimestampField : Type
  | absent : TimestampField
  | unparsable : TimestampField
  | valid (t : Int) : TimestampField
  deriving DecidableEq, Repr

/-- A retrieved post, mirroring the dict shape used throughout
`date_filter_patch.py`: every field other than the id may be missing. -/
structure Item : Type where
  reddit_id : String
  title : Option String
  selftext : Option String
  score : Option Int
  num_comments : Option Int
  created_utc : TimestampField
  deriving DecidableEq, Repr

/-- A closed instant interval `[dateFrom, dateTo]` (spec §3 `DateSpan`). -/
structure DateSpan : Type where
  dateFrom : Int
  dateTo : Int
  deriving DecidableEq, Repr

/-- Diagnostic record of one filtering pass (spec §3 `FilterReport`). -/
structure FilterReport : Type where
  total_in : Nat
  excluded_date : Nat
  excluded_keyword : Nat
  invalid : Nat
  final_count : Nat
  deriving DecidableEq, Repr

/-! ## Keyword matcher

Embedded from `date_filter_patch.py`, `IMPROVED_SEARCH_METHOD` lines 73-82:

    title_text = post.get('title', '').lower()
    content_text = (post.get('selftext', '') or '').lower()
    combined_text = f"{title_text} {content_text}"
    if any(keyword.lower() in combined_text for keyword in keywords):
        keyword_filtered_posts.append(post)
-/

/-- Python's `needle in hay` substring test on strings. -/
def substrB (needle hay : String) : Bool :=
  decide (needle.toList <:+: hay.toList)

/-- Python's `str.lower()`, modelled as the per-character lowercase map. -/
def lowerStr (s : String) : String :=
  String.mk (s.data.map Char.toLower)

/-- The `combined_text` of a post: lowercased title and lowercased body
joined by one space, exactly as the f-string in the source builds it. -/
def combined_text (post : Item) : String :=
  lowerStr (post.title.getD "") ++ " " ++ lowerStr (post.selftext.getD "")

/-- `any(keyword.lower() in combined_text for keyword in keywords)`. -/
def keyword_match (keywords : List String) (post : Item) : Bool :=
  keywords.any (fun kw => substrB (lowerStr kw) (combined_text post))

/-- The keyword-filtering loop of the source: keep the posts whose
`combined_text` contains at least one keyword. -/
def keyword_filter (keywords : List String) (posts : List Item) : List Item :=
  posts.filter (keyword_match keywords)

/-- The keyword matcher as the spec's §4.3 words state it: case-insensitive
substring search over the concatenation of title and body (no separator),
body treated as empty when absent; OR semantics. -/
def spec_keyword_matches (keywords : List String) (post : Item) : Bool :=
  keywords.any (fun kw =>
    substrB (lowerStr kw) (lowerStr (post.title.getD "" ++ post.selftext.getD "")))

/-! ## Time-window selector

`ImprovedDateFiltering.select_optimal_time_filter` lives in
`services/date_filter_fix.py`, which is not among the sources; only its test
(`test_date_filter.py`, `test_time_filter_selection`) and its caller
(`date_filter_patch.py` line 44) are.  We therefore model the selector from
the spec and record the test's expectation table verbatim from the source. -/

/-- Modelled from the spec: the §4.1 threshold table of the missing
`ImprovedDateFiltering.select_optimal_time_filter` — DAY for 0-2, WEEK for
3-13, MONTH for 14-29, YEAR for 30-364, ALL for at least 365. -/
def spec_select_optimal_time_filter (daySpan : Nat) : String :=
  if daySpan ≤ 2 then "day"
  else if daySpan ≤ 13 then "week"
  else if daySpan ≤ 29 then "month"
  else if daySpan ≤ 364 then "year"
  else "all"

/-- The `(days, expected)` pairs of `test_time_filter_selection` in
`test_date_filter.py` lines 54-62, copied verbatim from the source. -/
def time_filter_test_cases : List (Nat × String) :=
  [(1, "day"), (3, "week"), (7, "week"), (15, "month"), (30, "month"),
   (60, "year"), (400, "all")]

/-- Modelled from the spec, amended at one boundary: the repository's own
test expects `select(30) = "month"`, so the MONTH band runs through 30 and
YEAR starts at 31; all other bands as in the spec's §4.1 table. -/
def select_optimal_time_filter (daySpan : Nat) : String :=
  if daySpan ≤ 2 then "day"
  else if daySpan ≤ 13 then "week"
  else if daySpan ≤ 30 then "month"
  else if daySpan ≤ 364 then "year"
  else "all"

/-! ## Date-range filter

`apply_improved_date_filtering` also lives in the missing
`services/date_filter_fix.py`.  Modelled from the spec's §4.2 contract:
an item's timestamp must be a valid absolute instant — absent or unparsable
timestamps are excluded and counted under `invalid`, never an error — and a
valid item is kept iff `span.from - buffer <= item.time <= span.to + buffer`,
preserving input order.  `buffer` is in the same unit as the instants. -/

/-- Does the `created_utc` field hold a valid absolute instant? -/
def tsValid : TimestampField → Bool
  | .valid _ => true
  | .absent => false
  | .unparsable => false

/-- The buffered inclusion test of spec §4.2:
`span.from - buffer <= t <= span.to + buffer`. -/
def inDateWindow (span : DateSpan) (buffer : Int) (t : Int) : Bool :=
  decide (span.dateFrom - buffer ≤ t) && decide (t ≤ span.dateTo + buffer)

/-- Per-item inclusion: a valid timestamp inside the buffered window;
items with absent or unparsable timestamps are never included. -/
def itemInWindow (span : DateSpan) (buffer : Int) (it : Item) : Bool :=
  match it.created_utc with
  | .valid t => inDateWindow span buffer t
  | .absent => false
  | .unparsable => false

/-- Modelled from the spec: the item sequence returned by the §4.2
`DateRangeFilter` — the input subsequence passing `itemInWindow`, in input
order. -/
def date_range_filter (items : List Item) (span : DateSpan) (buffer : Int) :
    List Item :=
  items.filter (itemInWindow span buffer)

/-- Modelled from the spec: the `FilterReport` of one date-filtering pass.
The keyword stage is separate, so `excluded_keyword` is 0 here. -/
def date_range_filter_report (items : List Item) (span : DateSpan)
    (buffer : Int) : FilterReport :=
  { total_in := items.length
    excluded_date :=
      (items.filter
        (fun it => tsValid it.created_utc && !(itemInWindow span buffer it))).length
    excluded_keyword := 0
    invalid := (items.filter (fun it => !(tsValid it.created_utc))).length
    final_count := (date_range_filter items span buffer).length }

/-- Modelled from the spec: `apply_improved_date_filtering(posts, days)` —
filter against the span `[now - days, now]` (days converted to the instant
unit, epoch seconds) with the reference default buffer of 4 hours. -/
def apply_improved_date_filtering (now : Int) (items : List Item)
    (days : Int) : List Item :=
  date_range_filter items (DateSpan.mk (now - days * 86400) now) (4 * 3600)

/-! ## Ranker

Embedded from `date_filter_patch.py`, `IMPROVED_SEARCH_METHOD` lines 84-93:
`list.sort(key=lambda x: x.get(field, 0), reverse=True)` — a stable
descending sort on the chosen field (Python's sort is stable, and
`reverse=True` keeps equal-keyed elements in their original order) —
followed by truncation `[:limit]`. -/

/-- The sort key `x.get('created_utc', 0)`: a valid instant, else the
default 0.  In the source the sort runs after the date filter, which has
already excluded absent/unparsable timestamps; the 0 mirrors the
`dict.get` default for the absent case and keeps the key total. -/
def dateKey (x : Item) : Int :=
  match x.created_utc with
  | .valid t => t
  | .absent => 0
  | .unparsable => 0

/-- The sort key the source uses for a given `sort_by` string:
`x.get('score', 0)`, `x.get('num_comments', 0)` or `x.get('created_utc', 0)`
(0 for an unrecognised criterion, for which the source does not sort). -/
def sortKey (sort_by : String) (x : Item) : Int :=
  if sort_by = "score" then (x.score.getD 0)
  else if sort_by = "comments" then (x.num_comments.getD 0)
  else if sort_by = "date" then dateKey x
  else 0

/-- Insert `a` into a descending-sorted list, before the first element whose
key is at most `key a` — Python-stable: among equal keys the earlier
(original-order) element stays first. -/
def insertDesc {α : Type} (key : α → Int) (a : α) : List α → List α
  | [] => [a]
  | b :: l => if key b ≤ key a then a :: b :: l else b :: insertDesc key a l

/-- Stable descending sort by `key`: the embedding of Python's
`list.sort(key=key, reverse=True)`. -/
def sortDesc {α : Type} (key : α → Int) : List α → List α
  | [] => []
  | a :: l => insertDesc key a (sortDesc key l)

/-- The sort-and-truncate tail of `IMPROVED_SEARCH_METHOD` lines 84-93:
sort descending by the criterion's field when `sort_by` is one of
`"score"`, `"comments"`, `"date"` (otherwise leave the order alone), then
take the first `limit` posts. -/
def rank_posts (sort_by : String) (limit : Nat) (posts : List Item) :
    List Item :=
  (if sort_by = "score" then sortDesc (fun x => x.score.getD 0) posts
   else if sort_by = "comments" then sortDesc (fun x => x.num_comments.getD 0) posts
   else if sort_by = "date" then sortDesc dateKey posts
   else posts).take limit

/-! ## Orchestrator: single-scope keyword+date search

Embedded from `date_filter_patch.py`, `IMPROVED_SEARCH_METHOD` lines 38-100.
The remote source is abstract: a function from `(query, time_filter,
requested limit)` to either a failure (a raised exception, `Except.error`)
or a list of posts.  The source's `try/except ... raise` re-raises any
exception, so a remote failure propagates unchanged. -/

/-- Embedding of `search_subreddit_posts_by_keyword_and_date`:
computes `days_diff`, picks the time filter, over-fetches
`min(limit * 3, 500)` posts, returns `[]` when the remote finds nothing,
else date-filters, keyword-filters, ranks and truncates. -/
def search_subreddit_posts_by_keyword_and_date
    (remote : String → String → Nat → Except String (List Item))
    (now : Int) (keywords : List String) (date_from date_to : Int)
    (limit : Nat) (sort_by : String) : Except String (List Item) :=
  let days_diff : Int := (date_to - date_from) / 86400
  let time_filter := select_optimal_time_filter days_diff.toNat
  let search_query := String.intercalate " OR " keywords
  match remote search_query time_filter (min (limit * 3) 500) with
  | .error e => .error e
  | .ok all_posts =>
    if all_posts.isEmpty then .ok []
    else
      let filtered_posts := apply_improved_date_filtering now all_posts days_diff
      let keyword_filtered_posts := keyword_filter keywords filtered_posts
      .ok (rank_posts sort_by limit keyword_filtered_posts)

/-! ## Concrete fixtures

Small concrete posts used to instantiate the theorems, shaped like the
sample posts of `test_date_filter.py` (`create_sample_posts`,
`test_edge_cases`). -/

/-- A fixed evaluation instant (epoch seconds), playing the test's `now`. -/
def sampleNow : Int := 1700000000

/-- A post whose title is "ab" and body "cd" (score 5, instant 10). -/
def demoA : Item := Item.mk "a" (some "ab") (some "cd") (some 5) none (.valid 10)

/-- A post titled "Hello World", no body, score 5, 2 comments, instant 20. -/
def demoB : Item :=
  Item.mk "b" (some "Hello World") none (some 5) (some 2) (.valid 20)

/-- A post with no title, no body, score 9 and no timestamp. -/
def demoC : Item := Item.mk "c" none none (some 9) none .absent

/-- A post with every optional field missing. -/
def demoD : Item := Item.mk "d" none none none none .absent

/-- `{'reddit_id': 'bad1', 'title': 'No date'}` of `test_edge_cases`. -/
def bad1 : Item := Item.mk "bad1" (some "No date") none none none .absent

/-- `{'reddit_id': 'bad2', 'title': 'Bad date', 'created_utc': 'invalid'}`. -/
def bad2 : Item := Item.mk "bad2" (some "Bad date") none none none .unparsable

/-- `{'reddit_id': 'good1', 'title': 'Good post', 'created_utc': now}`. -/
def good1 : Item :=
  Item.mk "good1" (some "Good post") none none none (.valid sampleNow)

/-- The `bad_posts` batch of `test_edge_cases`. -/
def badBatch : List Item := [bad1, bad2, good1]

/-- The 7-day span ending at `sampleNow` used with `badBatch`. -/
def span7 : DateSpan := DateSpan.mk (sampleNow - 7 * 86400) sampleNow

/-! ## Helper lemmas about the stable descending sort -/

theorem length_insertDesc {α : Type} (key : α → Int) (a : α) :
    ∀ l : List α, (insertDesc key a l).length = l.length + 1
  | [] => rfl
  | b :: l => by
    simp only [insertDesc]
    split
    · simp
    · simp [length_insertDesc key a l]

theorem length_sortDesc {α : Type} (key : α → Int) :
    ∀ l : List α, (sortDesc key l).length = l.length
  | [] => rfl
  | a :: l => by
    simp [sortDesc, length_insertDesc, length_sortDesc key l]

theorem mem_insertDesc {α : Type} (key : α → Int) (a x : α) :
    ∀ l : List α, x ∈ insertDesc key a l ↔ x = a ∨ x ∈ l
  | [] => by simp [insertDesc]
  | b :: l => by
    simp only [insertDesc]
    split
    · simp [or_comm, or_assoc]
    · simp only [List.mem_cons, mem_insertDesc key a x l]
      tauto

theorem pairwise_insertDesc {α : Type} (key : α → Int) (a : α) :
    ∀ l : List α, l.Pairwise (fun p q => key q ≤ key p) →
      (insertDesc key a l).Pairwise (fun p q => key q ≤ key p)
  | [], _ => by simp [insertDesc]
  | b :: l, h => by
    rcases List.pairwise_cons.mp h with ⟨hb, hl⟩
    simp only [insertDesc]
    split
    · rename_i hba
      exact List.pairwise_cons.mpr
        ⟨fun x hx => by
          rcases List.mem_cons.mp hx with hxb | hxl
          · exact hxb ▸ hba
          · exact le_trans (hb x hxl) hba, h⟩
    · rename_i hba
      exact List.pairwise_cons.mpr
        ⟨fun x hx => by
          rcases (mem_insertDesc key a x l).mp hx with hxa | hxl
          · exact hxa ▸ le_of_lt (lt_of_not_le hba)
          · exact hb x hxl,
         pairwise_insertDesc key a l hl⟩

theorem sorted_sortDesc {α : Type} (key : α → Int) :
    ∀ l : List α, (sortDesc key l).Pairwise (fun p q => key q ≤ key p)
  | [] => by simp [sortDesc]
  | a :: l => pairwise_insertDesc key a _ (sorted_sortDesc key l)

theorem filter_insertDesc {α : Type} (key : α → Int) (a : α) (v : Int) :
    ∀ l : List α, l.Pairwise (fun p q => key q ≤ key p) →
      (insertDesc key a l).filter (fun x => decide (key x = v)) =
        if key a = v then a :: l.filter (fun x => decide (key x = v))
        else l.filter (fun x => decide (key x = v))
  | [], _ => by
    by_cases hav : key a = v <;> simp [insertDesc, List.filter_cons, hav]
  | b :: l, hp => by
    rcases List.pairwise_cons.mp hp with ⟨-, hl⟩
    simp only [insertDesc]
    split
    · by_cases hav : key a = v <;> simp [List.filter_cons, hav]
    · rename_i hba
      have hab : key a < key b := lt_of_not_le hba
      have ih := filter_insertDesc key a v l hl
      by_cases hbv : key b = v
      · have hav : ¬ key a = v := by omega
        simp [List.filter_cons, hbv, ih, hav]
      · by_cases hav : key a = v <;> simp [List.filter_cons, hbv, ih, hav]

theorem filter_sortDesc {α : Type} (key : α → Int) (v : Int) :
    ∀ l : List α,
      (sortDesc key l).filter (fun x => decide (key x = v)) =
        l.filter (fun x => decide (key x = v))
  | [] => rfl
  | a :: l => by
    have h := filter_insertDesc key a v (sortDesc key l) (sorted_sortDesc key l)
    by_cases hav : key a = v <;>
      simp [sortDesc, h, hav, filter_sortDesc key v l, List.filter_cons]

theorem take_isPrefixOf {α : Type} (n : Nat) (l : List α) : l.take n <+: l :=
  ⟨l.drop n, l.take_append_drop n⟩

theorem filter_mono_of_isPrefixOf {α : Type} (p : α → Bool) {l₁ l₂ : List α}
    (h : l₁ <+: l₂) : l₁.filter p <+: l₂.filter p := by
  obtain ⟨t, ht⟩ := h
  exact ⟨t.filter p, by rw [← List.filter_append, ht]⟩

/-- Combined behaviour of sort-then-truncate: length `min limit |l|`,
descending order on the key, and stability (equal-key items appear as a
prefix of their original-order listing). -/
theorem sortDesc_take_spec {α : Type} (key : α → Int) (l : List α)
    (limit : Nat) :
    ((sortDesc key l).take limit).length = min limit l.length ∧
    ((sortDesc key l).take limit).Pairwise (fun p q => key q ≤ key p) ∧
    (∀ v : Int, ((sortDesc key l).take limit).filter (fun x => decide (key x = v))
      <+: l.filter (fun x => decide (key x = v))) := by
  refine ⟨?_, ?_, ?_⟩
  · rw [List.length_take, length_sortDesc]
  · exact List.Pairwise.sublist (List.take_sublist _ _) (sorted_sortDesc key l)
  · intro v
    have h1 := filter_mono_of_isPrefixOf (fun x => decide (key x = v))
      (take_isPrefixOf limit (sortDesc key l))
    rw [filter_sortDesc key v l] at h1
    exact h1

/-- An item passing the window test necessarily has a valid timestamp. -/
theorem tsValid_of_itemInWindow (span : DateSpan) (buffer : Int) (it : Item)
    (h : itemInWindow span buffer it = true) :
    tsValid it.created_utc = true := by
  cases hc : it.created_utc <;> simp [itemInWindow, tsValid, hc] at h ⊢

/-- The buffered inclusion test is monotone in the buffer. -/
theorem itemInWindow_mono (span : DateSpan) {b1 b2 : Int} (hb : b1 ≤ b2)
    (it : Item) (h : itemInWindow span b1 it = true) :
    itemInWindow span b2 it = true := by
  cases hc : it.created_utc with
  | valid t =>
    simp only [itemInWindow, hc, inDateWindow, Bool.and_eq_true,
      decide_eq_true_eq] at h ⊢
    omega
  | absent => simp [itemInWindow, hc] at h
  | unparsable => simp [itemInWindow, hc] at h

/-- For a `sort_by` string whose branch of `rank_posts` sorts by `k`, the
ranked output has length `min limit n`, is descending on `k`, is stable
(equal-key items are a prefix of their original-order listing), and equals
the untruncated ranking truncated afterwards. -/
theorem rank_branch_spec (sort_by : String) (k : Item → Int)
    (hk : ∀ x, sortKey sort_by x = k x)
    (he : ∀ (lim : Nat) (posts : List Item),
      rank_posts sort_by lim posts = (sortDesc k posts).take lim)
    (posts : List Item) (limit : Nat) :
    (rank_posts sort_by limit posts).length = min limit posts.length ∧
    (rank_posts sort_by limit posts).Pairwise
      (fun p q => sortKey sort_by q ≤ sortKey sort_by p) ∧
    (∀ v : Int,
      (rank_posts sort_by limit posts).filter
          (fun x => decide (sortKey sort_by x = v)) <+:
        posts.filter (fun x => decide (sortKey sort_by x = v))) ∧
    rank_posts sort_by limit posts =
      (rank_posts sort_by posts.length posts).take limit := by
  have hfun : sortKey sort_by = k := funext hk
  have hs := sortDesc_take_spec k posts limit
  have e2 : (sortDesc k posts).take posts.length = sortDesc k posts := by
    conv_lhs => rw [← length_sortDesc k posts]
    exact List.take_length (sortDesc k posts)
  rw [he limit posts, he posts.length posts, hfun, e2]
  exact ⟨hs.1, hs.2.1, hs.2.2, rfl⟩

/-! ## Claims -/

/-- C1, counterexample: the spec's table sends daySpan 30 to YEAR, but the
repository's own test (`test_time_filter_selection`) expects `"month"` for
30 days, so the claimed MONTH/YEAR boundary at 30 contradicts the source. -/
theorem c1_select_table_counterexample :
    (30, "month") ∈ time_filter_test_cases ∧
      spec_select_optimal_time_filter 30 ≠ "month" := by
  decide

/-- C1, amended: the selector returns DAY on [0,2], WEEK on [3,13], MONTH
on [14,30], YEAR on [31,364] and ALL from 365 on — i.e. the boundary moved
by the test sits at 31, not 30 — and the selector agrees with every
`(days, expected)` pair of `test_time_filter_selection`. -/
theorem c1_select_optimal_time_filter_table (d : Nat) :
    (d ≤ 2 → select_optimal_time_filter d = "day") ∧
    (3 ≤ d → d ≤ 13 → select_optimal_time_filter d = "week") ∧
    (14 ≤ d → d ≤ 30 → select_optimal_time_filter d = "month") ∧
    (31 ≤ d → d ≤ 364 → select_optimal_time_filter d = "year") ∧
    (365 ≤ d → select_optimal_time_filter d = "all") ∧
    time_filter_test_cases.all
      (fun c => select_optimal_time_filter c.1 == c.2) = true := by
  refine ⟨fun h1 => ?_, fun h1 h2 => ?_, fun h1 h2 => ?_, fun h1 h2 => ?_,
    fun h1 => ?_, by decide⟩
  · unfold select_optimal_time_filter
    rw [if_pos h1]
  · unfold select_optimal_time_filter
    rw [if_neg (by omega), if_pos h2]
  · unfold select_optimal_time_filter
    rw [if_neg (by omega), if_neg (by omega), if_pos h2]
  · unfold select_optimal_time_filter
    rw [if_neg (by omega), if_neg (by omega), if_neg (by omega), if_pos h2]
  · unfold select_optimal_time_filter
    rw [if_neg (by omega), if_neg (by omega), if_neg (by omega),
      if_neg (by omega)]

/-- C1, witness: the amended table evaluated at the boundary value 30. -/
theorem c1_select_witness :
    (14 ≤ 30 ∧ 30 ≤ 30) ∧ select_optimal_time_filter 30 = "month" :=
  ⟨⟨by decide, by decide⟩,
    (c1_select_optimal_time_filter_table 30).2.2.1 (by decide) (by decide)⟩

/-- C2, counterexample: with an empty keyword list the source's
`any(keyword.lower() in combined_text for keyword in keywords)` is `False`,
so a concrete date-qualifying post is not matched and the batch is emptied
instead of passed through. -/
theorem c2_empty_keywords_counterexample :
    keyword_match [] demoA = false ∧ keyword_filter [] [demoA, demoB] = [] := by
  decide

/-- C2, amended: an empty keyword set matches nothing — every post fails
the keyword test, and the keyword-filtering loop over any batch returns the
empty list (empty keywords filter everything out, the opposite of "no
filtering"). -/
theorem c2_keyword_match_empty :
    (∀ post : Item, keyword_match [] post = false) ∧
    (∀ posts : List Item, keyword_filter [] posts = []) := by
  refine ⟨fun post => rfl, fun posts => ?_⟩
  simp [keyword_filter, keyword_match]

/-- C9, counterexample: the source joins lowercased title and body with one
space, so for title `"ab"`, body `"cd"` the keyword `"bc"` is a substring
of the spec's plain concatenation `"abcd"` but not of the code's
`"ab cd"`: the spec-worded matcher says true, the code says false. -/
theorem c9_space_join_counterexample :
    spec_keyword_matches ["bc"] demoA = true ∧
      keyword_match ["bc"] demoA = false := by
  decide

/-- C9, amended: for every item and non-empty keyword set, the keyword
match is true iff at least one keyword occurs, ignoring case, as a
substring of the concatenation of the item's title, one space, and body
(missing title or body treated as the empty string; OR semantics). -/
theorem c9_keyword_match_iff (post : Item) (keywords : List String)
    (h : keywords ≠ []) :
    keyword_match keywords post = true ↔
      ∃ kw ∈ keywords,
        (lowerStr kw).toList <:+: (combined_text post).toList := by
  simp [keyword_match, substrB, List.any_eq_true]

/-- C9, witness: the amended equivalence at a concrete post and keyword. -/
theorem c9_witness :
    (["world"] ≠ ([] : List String)) ∧
      (keyword_match ["world"] demoB = true ↔
        ∃ kw ∈ ["world"],
          (lowerStr kw).toList <:+: (combined_text demoB).toList) :=
  ⟨by decide, c9_keyword_match_iff demoB ["world"] (by decide)⟩

/-- C7: widening the tolerance buffer never loses an item — every item the
zero-buffer date filter keeps is also kept with any positive buffer `H`. -/
theorem c7_buffer_monotone (items : List Item) (span : DateSpan) (H : Int)
    (h : 0 < H) :
    ∀ it ∈ date_range_filter items span 0,
      it ∈ date_range_filter items span H := by
  intro it hin
  rcases List.mem_filter.mp hin with ⟨hmem, hw⟩
  exact List.mem_filter.mpr ⟨hmem, itemInWindow_mono span (le_of_lt h) it hw⟩

/-- C7, witness: a post kept with buffer 0 is kept with buffer 5. -/
theorem c7_witness :
    (0 : Int) < 5 ∧
      demoA ∈ date_range_filter [demoA, demoC, demoB] (DateSpan.mk 0 15) 5 :=
  ⟨by decide,
    c7_buffer_monotone [demoA, demoC, demoB] (DateSpan.mk 0 15) 5 (by decide)
      demoA (by decide)⟩

/-- C8: the date-range filter is idempotent — re-filtering its own output
with the same span and buffer returns that output unchanged — and its
output is a subsequence of the input, preserving relative order. -/
theorem c8_idempotent_order_preserving (items : List Item) (span : DateSpan)
    (buffer : Int) :
    date_range_filter (date_range_filter items span buffer) span buffer =
      date_range_filter items span buffer ∧
    List.Sublist (date_range_filter items span buffer) items := by
  constructor
  · simp [date_range_filter, List.filter_filter]
  · exact List.filter_sublist items

/-- C3: for each criterion, `rank_posts` returns `min limit n` posts sorted
descending on the criterion's field; equal-valued posts keep their arrival
order (for every key value, the output's posts with that value form a
prefix of the input's posts with that value); and the truncation to `limit`
is applied to the fully sorted sequence, never before sorting. -/
theorem c3_rank_posts_spec (posts : List Item) (sort_by : String)
    (limit : Nat)
    (h : sort_by = "score" ∨ sort_by = "comments" ∨ sort_by = "date") :
    (rank_posts sort_by limit posts).length = min limit posts.length ∧
    (rank_posts sort_by limit posts).Pairwise
      (fun p q => sortKey sort_by q ≤ sortKey sort_by p) ∧
    (∀ v : Int,
      (rank_posts sort_by limit posts).filter
          (fun x => decide (sortKey sort_by x = v)) <+:
        posts.filter (fun x => decide (sortKey sort_by x = v))) ∧
    rank_posts sort_by limit posts =
      (rank_posts sort_by posts.length posts).take limit := by
  rcases h with h | h | h <;> subst h
  · exact rank_branch_spec "score" (fun x => x.score.getD 0)
      (fun x => by simp [sortKey]) (fun lim ps => by simp [rank_posts])
      posts limit
  · exact rank_branch_spec "comments" (fun x => x.num_comments.getD 0)
      (fun x => by simp [sortKey]) (fun lim ps => by simp [rank_posts])
      posts limit
  · exact rank_branch_spec "date" dateKey
      (fun x => by simp [sortKey]) (fun lim ps => by simp [rank_posts])
      posts limit

/-- C3, witness: ranking a crafted tie case (scores 5, 5, 9) by score with
limit 2: all four conjuncts at that concrete input. -/
theorem c3_witness :
    ("score" = "score" ∨ "score" = "comments" ∨ "score" = "date") ∧
      ((rank_posts "score" 2 [demoA, demoB, demoC]).length =
          min 2 [demoA, demoB, demoC].length ∧
        (rank_posts "score" 2 [demoA, demoB, demoC]).Pairwise
          (fun p q => sortKey "score" q ≤ sortKey "score" p) ∧
        (∀ v : Int,
          (rank_posts "score" 2 [demoA, demoB, demoC]).filter
              (fun x => decide (sortKey "score" x = v)) <+:
            [demoA, demoB, demoC].filter
              (fun x => decide (sortKey "score" x = v))) ∧
        rank_posts "score" 2 [demoA, demoB, demoC] =
          (rank_posts "score" [demoA, demoB, demoC].length
            [demoA, demoB, demoC]).take 2) :=
  ⟨Or.inl rfl, c3_rank_posts_spec [demoA, demoB, demoC] "score" 2 (Or.inl rfl)⟩

/-- C10: in the ranking step a post lacking the chosen field gets the sort
key 0 (the `dict.get` default) instead of failing, and in the ranked output
a post never precedes a post of strictly positive key unless its own key is
positive — so missing-field posts never outrank posts with positive field
values. -/
theorem c10_rank_missing_fields (sort_by : String) (posts : List Item)
    (limit : Nat)
    (h : sort_by = "score" ∨ sort_by = "comments" ∨ sort_by = "date") :
    (∀ x : Item, x.score = none → sortKey "score" x = 0) ∧
    (∀ x : Item, x.num_comments = none → sortKey "comments" x = 0) ∧
    (∀ x : Item, x.created_utc = TimestampField.absent →
      sortKey "date" x = 0) ∧
    (rank_posts sort_by limit posts).Pairwise
      (fun p q => 0 < sortKey sort_by q → 0 < sortKey sort_by p) := by
  refine ⟨fun x hx => by simp [sortKey, hx],
    fun x hx => by simp [sortKey, hx],
    fun x hx => by simp [sortKey, dateKey, hx], ?_⟩
  have hp : (rank_posts sort_by limit posts).Pairwise
      (fun p q => sortKey sort_by q ≤ sortKey sort_by p) := by
    rcases h with h | h | h <;> subst h
    · exact (rank_branch_spec "score" (fun x => x.score.getD 0)
        (fun x => by simp [sortKey]) (fun lim ps => by simp [rank_posts])
        posts limit).2.1
    · exact (rank_branch_spec "comments" (fun x => x.num_comments.getD 0)
        (fun x => by simp [sortKey]) (fun lim ps => by simp [rank_posts])
        posts limit).2.1
    · exact (rank_branch_spec "date" dateKey
        (fun x => by simp [sortKey]) (fun lim ps => by simp [rank_posts])
        posts limit).2.1
  exact hp.imp fun hle hq => lt_of_lt_of_le hq hle

/-- C10, witness: ranking a batch containing a post with every optional
field missing, by score. -/
theorem c10_witness :
    ("score" = "score" ∨ "score" = "comments" ∨ "score" = "date") ∧
      ((∀ x : Item, x.score = none → sortKey "score" x = 0) ∧
        (∀ x : Item, x.num_comments = none → sortKey "comments" x = 0) ∧
        (∀ x : Item, x.created_utc = TimestampField.absent →
          sortKey "date" x = 0) ∧
        (rank_posts "score" 2 [demoD, demoA, demoB]).Pairwise
          (fun p q => 0 < sortKey "score" q → 0 < sortKey "score" p)) :=
  ⟨Or.inl rfl,
    c10_rank_missing_fields "score" [demoD, demoA, demoB] 2 (Or.inl rfl)⟩

/-- Each item of a batch falls into exactly one bucket of the report:
invalid timestamp, valid but outside the window, or kept. -/
theorem filter_partition (items : List Item) (span : DateSpan)
    (buffer : Int) :
    items.length =
      (items.filter (fun it => !(tsValid it.created_utc))).length +
      (items.filter
        (fun it => tsValid it.created_utc &&
          !(itemInWindow span buffer it))).length +
      (items.filter (itemInWindow span buffer)).length := by
  induction items with
  | nil => rfl
  | cons a l ih =>
    by_cases hw : itemInWindow span buffer a = true
    · have hv := tsValid_of_itemInWindow span buffer a hw
      simp only [List.filter_cons, hv, hw, List.length_cons, Bool.not_true,
        Bool.and_false, Bool.false_eq_true, if_false, if_true]
      omega
    · rw [Bool.not_eq_true] at hw
      by_cases hv : tsValid a.created_utc = true
      · simp only [List.filter_cons, hv, hw, List.length_cons, Bool.not_true,
          Bool.not_false, Bool.and_true, Bool.false_eq_true, if_false,
          if_true]
        omega
      · rw [Bool.not_eq_true] at hv
        simp only [List.filter_cons, hv, hw, List.length_cons,
          Bool.not_false, Bool.false_and, Bool.false_eq_true, if_false,
          if_true]
        omega

/-- C4: an item with an absent or unparsable timestamp is excluded by the
date-range filter, counted under the report's `invalid` category, never an
error (the pass is a total function), and the rest of the batch proceeds
normally: the report's buckets partition the batch and dropping the invalid
items beforehand yields the same output. -/
theorem c4_date_filter_invalid (items : List Item) (span : DateSpan)
    (buffer : Int) :
    (∀ it ∈ items, tsValid it.created_utc = false →
      it ∉ date_range_filter items span buffer) ∧
    (date_range_filter_report items span buffer).invalid =
      (items.filter (fun it => !(tsValid it.created_utc))).length ∧
    (date_range_filter_report items span buffer).total_in =
      (date_range_filter_report items span buffer).invalid +
      (date_range_filter_report items span buffer).excluded_date +
      (date_range_filter_report items span buffer).final_count ∧
    date_range_filter items span buffer =
      date_range_filter (items.filter (fun it => tsValid it.created_utc))
        span buffer := by
  refine ⟨?_, rfl, filter_partition items span buffer, ?_⟩
  · intro it _ hinv hcontra
    have hw := (List.mem_filter.mp hcontra).2
    rw [tsValid_of_itemInWindow span buffer it hw] at hinv
    exact Bool.true_eq_false.mp hinv
  · have hpt : ∀ it : Item,
        (itemInWindow span buffer it && tsValid it.created_utc) =
          itemInWindow span buffer it := by
      intro it
      cases hc : it.created_utc <;> simp [itemInWindow, tsValid, hc]
    simp only [date_range_filter, List.filter_filter, hpt]

/-- C4, witness: the `bad_posts` batch of `test_edge_cases` — the post with
no `created_utc` is excluded without an error. -/
theorem c4_witness :
    (bad1 ∈ badBatch ∧ tsValid bad1.created_utc = false) ∧
      bad1 ∉ date_range_filter badBatch span7 (4 * 3600) :=
  ⟨⟨by decide, by decide⟩,
    (c4_date_filter_invalid badBatch span7 (4 * 3600)).1 bad1 (by decide)
      (by decide)⟩

/-- C5: a remote failure propagates to the caller as `Except.error` (the
source's `except ... raise` re-raises), a remote success with no items is
the distinct success value `Except.ok []`, and the two are never equal. -/
theorem c5_failure_contract
    (remote : String → String → Nat → Except String (List Item))
    (now : Int) (keywords : List String) (date_from date_to : Int)
    (limit : Nat) (sort_by : String) :
    (∀ e : String,
      remote (String.intercalate " OR " keywords)
          (select_optimal_time_filter ((date_to - date_from) / 86400).toNat)
          (min (limit * 3) 500) = .error e →
        search_subreddit_posts_by_keyword_and_date remote now keywords
          date_from date_to limit sort_by = .error e) ∧
    (remote (String.intercalate " OR " keywords)
          (select_optimal_time_filter ((date_to - date_from) / 86400).toNat)
          (min (limit * 3) 500) = .ok [] →
        search_subreddit_posts_by_keyword_and_date remote now keywords
          date_from date_to limit sort_by = .ok []) ∧
    (∀ (e : String) (posts : List Item),
      (Except.error e : Except String (List Item)) ≠ .ok posts) := by
  refine ⟨fun e he => ?_, fun hok => ?_, fun e posts => by simp⟩
  · simp only [search_subreddit_posts_by_keyword_and_date, he]
  · simp only [search_subreddit_posts_by_keyword_and_date, hok,
      List.isEmpty_nil, if_true]

/-- C5, witness: a remote that raises propagates its error through the
search at concrete arguments. -/
theorem c5_witness :
    ((fun _ _ _ => Except.error "boom" :
        String → String → Nat → Except String (List Item))
        (String.intercalate " OR " ["x"])
        (select_optimal_time_filter (((7 * 86400 - 0) / 86400 : Int)).toNat)
        (min (7 * 3) 500) = Except.error "boom") ∧
      search_subreddit_posts_by_keyword_and_date
          (fun _ _ _ => Except.error "boom") 0 ["x"] 0 (7 * 86400) 7
          "score" = Except.error "boom" :=
  ⟨rfl,
    (c5_failure_contract (fun _ _ _ => Except.error "boom") 0 ["x"] 0
      (7 * 86400) 7 "score").1 "boom" rfl⟩

/-- C6: the search requests exactly `min(limit * 3, 500)` items from the
remote source — observed by a remote that reports back the requested
count through the error channel, the only information flow there is. -/
theorem c6_overfetch_request (now : Int) (keywords : List String)
    (date_from date_to : Int) (limit : Nat) (sort_by : String) :
    search_subreddit_posts_by_keyword_and_date
        (fun _ _ fetch => Except.error (toString fetch)) now keywords
        date_from date_to limit sort_by =
      Except.error (toString (min (limit * 3) 500)) := rfl

end Trendit
